import Mathlib

/-!
Verification of the cell-tracker application (src/app.py).

The Flask/SQLAlchemy application is shallowly embedded: the relational
store is a pair of lists (leaders, service records), each endpoint is a
pure function from its request parameters and the store, and the
session/transaction discipline of the source (pending changes are
committed at the end of a handler, every caught exception rolls the
transaction back) is modelled by returning the untouched store on the
error path.  Machine integers are `Int`/`Nat`; the `Float` column
`cell_offering` is modelled as `ℚ` (exact arithmetic); calendar dates and
timestamps are explicit records, and the fixed textual formats of
`isoformat`/`strptime`/`strftime` are implemented as executable
printers/parsers over the character data of `String`.
-/

/-- A calendar date, as produced by `datetime.date`. -/
structure Date where
  year : Nat
  month : Nat
  day : Nat
deriving DecidableEq, Repr

/-- A timestamp, as produced by `datetime.datetime` (microsecond precision). -/
structure DateTime where
  date : Date
  hour : Nat
  minute : Nat
  second : Nat
  usec : Nat
deriving DecidableEq, Repr

/-- Leap-year rule of the proleptic Gregorian calendar used by `datetime`. -/
def isLeap (y : Nat) : Bool :=
  y % 4 == 0 && (y % 100 != 0 || y % 400 == 0)

/-- Number of days in a month, as validated by `datetime.date`. -/
def daysInMonth (y m : Nat) : Nat :=
  if m == 2 then (if isLeap y then 29 else 28)
  else if m == 4 || m == 6 || m == 9 || m == 11 then 30
  else 31

/-- Validity of a year/month/day triple under `datetime.date` (years 1..9999). -/
def validYMD (y m d : Nat) : Bool :=
  1 ≤ y && y ≤ 9999 && 1 ≤ m && m ≤ 12 && 1 ≤ d && d ≤ daysInMonth y m

/-- A `Date` value that `datetime.date` could actually hold. -/
def ValidDate (d : Date) : Prop :=
  validYMD d.year d.month d.day = true

instance (d : Date) : Decidable (ValidDate d) := by
  unfold ValidDate; infer_instance

/-- A `DateTime` value that `datetime.datetime` could actually hold. -/
def ValidDateTime (t : DateTime) : Prop :=
  ValidDate t.date ∧ t.hour < 24 ∧ t.minute < 60 ∧ t.second < 60 ∧ t.usec < 1000000

instance (t : DateTime) : Decidable (ValidDateTime t) := by
  unfold ValidDateTime; infer_instance

/-- Date comparison (`date <= date` in Python is lexicographic on y/m/d). -/
def dateLe (a b : Date) : Bool :=
  a.year < b.year || (a.year == b.year &&
    (a.month < b.month || (a.month == b.month && a.day ≤ b.day)))

/-- Timestamp comparison, lexicographic, matching `datetime` ordering. -/
def dtLe (a b : DateTime) : Bool :=
  (dateLe a.date b.date && a.date != b.date) ||
  (a.date == b.date &&
    (a.hour < b.hour || (a.hour == b.hour &&
      (a.minute < b.minute || (a.minute == b.minute &&
        (a.second < b.second || (a.second == b.second && a.usec ≤ b.usec)))))))

/-- Rata-die day number of a proleptic-Gregorian date (the civil-calendar
algorithm), the ordinal arithmetic `datetime.date` bases `timedelta` on. -/
def toRataDie (d : Date) : Int :=
  let y : Int := if d.month ≤ 2 then (d.year : Int) - 1 else (d.year : Int)
  let era : Int := (if y ≥ 0 then y else y - 399) / 400
  let yoe : Int := y - era * 400
  let mp : Int := if d.month > 2 then (d.month : Int) - 3 else (d.month : Int) + 9
  let doy : Int := (153 * mp + 2) / 5 + (d.day : Int) - 1
  let doe : Int := yoe * 365 + yoe / 4 - yoe / 100 + doy
  era * 146097 + doe - 719468

/-- Inverse of `toRataDie`: the civil date of a rata-die day number. -/
def fromRataDie (z0 : Int) : Date :=
  let z : Int := z0 + 719468
  let era : Int := (if z ≥ 0 then z else z - 146096) / 146097
  let doe : Int := z - era * 146097
  let yoe : Int := (doe - doe / 1460 + doe / 36524 - doe / 146096) / 365
  let y : Int := yoe + era * 400
  let doy : Int := doe - (365 * yoe + yoe / 4 - yoe / 100)
  let mp : Int := (5 * doy + 2) / 153
  let dd : Int := doy - (153 * mp + 2) / 5 + 1
  let mm : Int := if mp < 10 then mp + 3 else mp - 9
  ⟨(if mm ≤ 2 then y + 1 else y).toNat, mm.toNat, dd.toNat⟩

/-- Subtracting `n` days from a date: `d - timedelta(days=n)`. -/
def subDays (d : Date) (n : Nat) : Date := fromRataDie (toRataDie d - n)

/-- Numeric value of a decimal digit character, used by the strict parsers. -/
def digitVal (c : Char) : Option Nat :=
  if c.isDigit then some (c.toNat - 48) else none

/-- Two zero-padded decimal digits, as printed by `%m`/`%d`/`%H`/`%M`/`%S`. -/
def print2 (n : Nat) : List Char :=
  [Nat.digitChar (n / 10 % 10), Nat.digitChar (n % 10)]

/-- Four zero-padded decimal digits, as printed by `%Y`. -/
def print4 (n : Nat) : List Char :=
  [Nat.digitChar (n / 1000 % 10), Nat.digitChar (n / 100 % 10),
   Nat.digitChar (n / 10 % 10), Nat.digitChar (n % 10)]

/-- Six zero-padded decimal digits, the microsecond field of `isoformat`. -/
def print6 (n : Nat) : List Char :=
  [Nat.digitChar (n / 100000 % 10), Nat.digitChar (n / 10000 % 10),
   Nat.digitChar (n / 1000 % 10), Nat.digitChar (n / 100 % 10),
   Nat.digitChar (n / 10 % 10), Nat.digitChar (n % 10)]

/-- Parse two decimal digit characters. -/
def parse2 (a b : Char) : Option Nat := do
  let x ← digitVal a
  let y ← digitVal b
  pure (x * 10 + y)

/-- Parse four decimal digit characters. -/
def parse4 (a b c d : Char) : Option Nat := do
  let x ← digitVal a
  let y ← digitVal b
  let z ← digitVal c
  let w ← digitVal d
  pure (((x * 10 + y) * 10 + z) * 10 + w)

/-- Parse six decimal digit characters. -/
def parse6 (a b c d e f : Char) : Option Nat := do
  let x ← parse4 a b c d
  let y ← parse2 e f
  pure (x * 100 + y)

/-- The `YYYY-MM-DD` rendering of a date: `date.isoformat()` and `strftime("%Y-%m-%d")`. -/
def fmtYMD (d : Date) : String :=
  String.mk (print4 d.year ++ '-' :: print2 d.month ++ '-' :: print2 d.day)

/-- The `YYYY-MM` rendering of a date: `strftime("%Y-%m")`. -/
def fmtYM (d : Date) : String :=
  String.mk (print4 d.year ++ '-' :: print2 d.month)

/-- The `datetime.isoformat()` rendering: `YYYY-MM-DDTHH:MM:SS`, with a
`.ffffff` suffix exactly when the microsecond field is nonzero. -/
def fmtDT (t : DateTime) : String :=
  String.mk (print4 t.date.year ++ '-' :: print2 t.date.month ++ '-' :: print2 t.date.day
    ++ 'T' :: print2 t.hour ++ ':' :: print2 t.minute ++ ':' :: print2 t.second
    ++ (if t.usec == 0 then [] else '.' :: print6 t.usec))

/-- The human-facing `strftime("%Y-%m-%d %H:%M")` rendering of a timestamp. -/
def fmtHM (t : DateTime) : String :=
  String.mk (print4 t.date.year ++ '-' :: print2 t.date.month ++ '-' :: print2 t.date.day
    ++ ' ' :: print2 t.hour ++ ':' :: print2 t.minute)

/-- Split a character list at every dash, keeping empty groups. -/
def splitDash : List Char → List (List Char)
  | [] => [[]]
  | c :: rest =>
    if c = '-' then [] :: splitDash rest
    else
      match splitDash rest with
      | [] => [[c]]
      | g :: gs => (c :: g) :: gs

/-- Decimal value of a digit-character group. -/
def digitsToNat (l : List Char) : Nat :=
  l.foldl (fun acc c => acc * 10 + (c.toNat - 48)) 0

/-- Model of `datetime.strptime(s, "%Y-%m-%d").date()`.  CPython's `%Y`
pattern requires exactly four digits, while `%m` and `%d` accept one or two
digits (zero-padding optional, e.g. "2024-1-4" parses); the value ranges the
`%m`/`%d` patterns and the `date` constructor enforce amount to the calendar
check, and any leftover input is an error. -/
def parseYMD (s : String) : Option Date :=
  match splitDash s.data with
  | [ys, ms, ds] =>
    if ys.length == 4 && ys.all Char.isDigit
        && (ms.length == 1 || ms.length == 2) && ms.all Char.isDigit
        && (ds.length == 1 || ds.length == 2) && ds.all Char.isDigit then
      let y := digitsToNat ys
      let m := digitsToNat ms
      let d := digitsToNat ds
      if validYMD y m d then some ⟨y, m, d⟩ else none
    else none
  | _ => none

/-- Model of `datetime.fromisoformat`: accepts the canonical output of
`fmtDT` (optionally with a 6-digit fraction) and validates all fields. -/
def parseISO (s : String) : Option DateTime :=
  match s.data with
  | y1 :: y2 :: y3 :: y4 :: '-' :: m1 :: m2 :: '-' :: d1 :: d2 :: 'T'
      :: h1 :: h2 :: ':' :: n1 :: n2 :: ':' :: s1 :: s2 :: rest => do
    let y ← parse4 y1 y2 y3 y4
    let mo ← parse2 m1 m2
    let da ← parse2 d1 d2
    let h ← parse2 h1 h2
    let mi ← parse2 n1 n2
    let se ← parse2 s1 s2
    let us ← match rest with
      | [] => some 0
      | ['.', u1, u2, u3, u4, u5, u6] => parse6 u1 u2 u3 u4 u5 u6
      | _ => none
    if validYMD y mo da && h < 24 && mi < 60 && se < 60 then
      some ⟨⟨y, mo, da⟩, h, mi, se, us⟩
    else none
  | _ => none

/-- The `Leader` model (src/app.py): nullable text columns are `Option String`,
the timestamps are nullable columns whose `None` case the backup code
explicitly handles.  Fields the application never reads are kept verbatim. -/
structure Leader where
  id : Int
  name : String
  zone : String
  cell_day : Option String
  contact_number : Option String
  email : Option String
  address : Option String
  profile_picture : Option String
  is_active : Bool
  created_at : Option DateTime
  updated_at : Option DateTime
deriving DecidableEq, Repr

/-- The `ServiceRecord` model (src/app.py).  The metric columns default to 0
and every creation path stores a number there, so they are plain `Int`
(`cell_offering`, a `Float` column, is `ℚ`). -/
structure ServiceRecord where
  id : Int
  leader_id : Int
  service_type : String
  service_date : Date
  sunday_attendance : Int
  sunday_visitors : Int
  cell_attendance : Int
  cell_visitors : Int
  cell_offering : ℚ
  cell_decisions : Int
  notes : Option String
  submitted_at : Option DateTime
deriving DecidableEq, Repr

/-- The relational store: all Leader rows and all ServiceRecord rows. -/
structure Store where
  leaders : List Leader
  records : List ServiceRecord
deriving DecidableEq, Repr

/-- The inner join `ServiceRecord.query.join(Leader)`: each record paired with
the leader row whose primary key it references; records with a dangling
`leader_id` produce no joined row. -/
def joinedRecords (store : Store) : List (ServiceRecord × Leader) :=
  store.records.filterMap fun r =>
    (store.leaders.find? fun l => l.id == r.leader_id).map fun l => (r, l)

/-- One accumulator of the aggregation engine: the five counters every
zone/date bucket carries (src/app.py lines 355-361, 467-473). -/
structure Stat where
  attendance : Int
  visitors : Int
  offering : ℚ
  decisions : Int
  services : Nat
deriving DecidableEq, Repr

/-- Pointwise addition of accumulators (the `+=` updates of the source). -/
def Stat.add (a b : Stat) : Stat :=
  ⟨a.attendance + b.attendance, a.visitors + b.visitors, a.offering + b.offering,
   a.decisions + b.decisions, a.services + b.services⟩

/-- What one record adds to an accumulator: the effective-metric projection
repeated verbatim at the zone-stats, leader-stats and trends sites of
src/app.py (attendance/visitors switch on "sunday", offering/decisions are
counted only for "cell", and the service counter always increments). -/
def recContrib (r : ServiceRecord) : Stat :=
  { attendance := if r.service_type == "sunday" then r.sunday_attendance else r.cell_attendance
    visitors := if r.service_type == "sunday" then r.sunday_visitors else r.cell_visitors
    offering := if r.service_type == "cell" then r.cell_offering else 0
    decisions := if r.service_type == "cell" then r.cell_decisions else 0
    services := 1 }

/-- Add `s` into the entry of key `k` of an insertion-ordered association
list, creating a fresh zero-initialised entry at the end when the key is
absent — exactly the dict-accumulation pattern of the source. -/
def bumpAdd (k : String) (s : Stat) : List (String × Stat) → List (String × Stat)
  | [] => [(k, s)]
  | (k2, t) :: rest =>
    if k2 == k then (k2, Stat.add t s) :: rest else (k2, t) :: bumpAdd k s rest

/-- One pass over `xs` accumulating `contrib x` into the bucket `key x`. -/
def groupAccum (key : α → String) (contrib : α → Stat) (xs : List α) :
    List (String × Stat) :=
  xs.foldl (fun acc x => bumpAdd (key x) (contrib x) acc) []

/-- A leader-stats accumulator additionally carries the leader's zone,
copied in when the entry is created (src/app.py lines 385-393). -/
structure LStat where
  attendance : Int
  visitors : Int
  offering : ℚ
  decisions : Int
  services : Nat
  zone : String
deriving DecidableEq, Repr

/-- Add a contribution into a leader-stats entry, keeping its zone. -/
def LStat.bump (t : LStat) (s : Stat) : LStat :=
  ⟨t.attendance + s.attendance, t.visitors + s.visitors, t.offering + s.offering,
   t.decisions + s.decisions, t.services + s.services, t.zone⟩

/-- Dict accumulation keyed by leader display name; the zone of a fresh
entry is the current record's leader's zone. -/
def bumpAddL (k : String) (s : Stat) (z : String) :
    List (String × LStat) → List (String × LStat)
  | [] => [(k, ⟨s.attendance, s.visitors, s.offering, s.decisions, s.services, z⟩)]
  | (k2, t) :: rest =>
    if k2 == k then (k2, t.bump s) :: rest else (k2, t) :: bumpAddL k s z rest

/-- The by-leader-name grouping of the overview (src/app.py lines 382-411). -/
def leaderStats (pairs : List (ServiceRecord × Leader)) : List (String × LStat) :=
  pairs.foldl (fun acc p => bumpAddL p.2.name (recContrib p.1) p.2.zone acc) []

/-- Overview flat total of effective attendance (src/app.py lines 335-338). -/
def totalAttendance (records : List ServiceRecord) : Int :=
  (records.map fun r =>
    if r.service_type == "sunday" then r.sunday_attendance else r.cell_attendance).sum

/-- Overview flat total of effective visitors (src/app.py lines 339-342). -/
def totalVisitors (records : List ServiceRecord) : Int :=
  (records.map fun r =>
    if r.service_type == "sunday" then r.sunday_visitors else r.cell_visitors).sum

/-- Overview flat total of offerings over "cell" records (src/app.py line 343). -/
def totalOffering (records : List ServiceRecord) : ℚ :=
  ((records.filter fun r => r.service_type == "cell").map fun r => r.cell_offering).sum

/-- Overview flat total of decisions over "cell" records (src/app.py line 344). -/
def totalDecisions (records : List ServiceRecord) : Int :=
  ((records.filter fun r => r.service_type == "cell").map fun r => r.cell_decisions).sum

/-- The inclusive service-date window filter shared by overview and trends. -/
def filterWindow (start stop : Date) (pairs : List (ServiceRecord × Leader)) :
    List (ServiceRecord × Leader) :=
  pairs.filter fun p => dateLe start p.1.service_date && dateLe p.1.service_date stop

/-- The optional zone filter: `if zone_filter:` — an empty string means no
restriction, otherwise exact match on the leader's zone. -/
def applyZone (zone : String) (pairs : List (ServiceRecord × Leader)) :
    List (ServiceRecord × Leader) :=
  if zone == "" then pairs else pairs.filter fun p => p.2.zone == zone

/-- The optional leader filter of the overview endpoint. -/
def applyLeader (lid : Option Int) (pairs : List (ServiceRecord × Leader)) :
    List (ServiceRecord × Leader) :=
  match lid with
  | none => pairs
  | some i => pairs.filter fun p => p.1.leader_id == i

/-- Start of the trailing window of the overview (src/app.py lines 313-319):
7 days for "week", 30 for "month", 365 for "year" and for every other token. -/
def overviewStart (period : String) (today : Date) : Date :=
  if period == "week" then subDays today 7
  else if period == "month" then subDays today 30
  else subDays today 365

/-- The record selection of the overview endpoint (src/app.py lines 321-332). -/
def overviewSelect (store : Store) (today : Date) (period zone : String)
    (lid : Option Int) : List (ServiceRecord × Leader) :=
  applyLeader lid (applyZone zone
    (filterWindow (overviewStart period today) today (joinedRecords store)))

/-- The JSON body of `GET /api/analytics/overview`. -/
structure OverviewResult where
  period : String
  start_date : String
  end_date : String
  total_attendance : Int
  total_visitors : Int
  total_offering : ℚ
  total_decisions : Int
  sunday_services : Nat
  cell_meetings : Nat
  zone_stats : List (String × Stat)
  leader_stats : List (String × LStat)
  total_records : Nat
deriving DecidableEq, Repr

/-- The `analytics_overview` handler (src/app.py lines 306-428).  `today` is
`datetime.now().date()`; a missing `period` query parameter defaults to
"week"; a missing zone filter is the empty string; a missing leader filter
is `none`. -/
def analyticsOverview (store : Store) (today : Date) (periodParam : Option String)
    (zoneFilter : String) (leaderIdFilter : Option Int) : OverviewResult :=
  let period := periodParam.getD "week"
  let start := overviewStart period today
  let pairs := overviewSelect store today period zoneFilter leaderIdFilter
  let records := pairs.map (·.1)
  { period := period
    start_date := fmtYMD start
    end_date := fmtYMD today
    total_attendance := totalAttendance records
    total_visitors := totalVisitors records
    total_offering := totalOffering records
    total_decisions := totalDecisions records
    sunday_services := (records.filter fun r => r.service_type == "sunday").length
    cell_meetings := (records.filter fun r => r.service_type == "cell").length
    zone_stats := groupAccum (fun p => p.2.zone) (fun p => recContrib p.1) pairs
    leader_stats := leaderStats pairs
    total_records := records.length }

/-- Window start and the `group_format` variable of the trends handler
(src/app.py lines 437-446).  Note the source assigns `group_format` — daily
for "week"/"month", monthly for the "year"/fallback branch — but then never
reads it: the bucketing below re-derives the granularity from the token. -/
def trendsWindow (period : String) (today : Date) : Date × String :=
  if period == "week" then (subDays today 7, "%Y-%m-%d")
  else if period == "month" then (subDays today 30, "%Y-%m-%d")
  else (subDays today 365, "%Y-%m")

/-- The bucket key actually used by the trends loop (src/app.py lines
461-464): monthly exactly when the token equals "year", daily otherwise —
including for unrecognized tokens, which still get the year-length window. -/
def trendsDateKey (period : String) (d : Date) : String :=
  if period == "year" then fmtYM d else fmtYMD d

/-- The record selection of the trends endpoint (src/app.py lines 449-456). -/
def trendsSelect (store : Store) (today : Date) (period zone : String) :
    List (ServiceRecord × Leader) :=
  applyZone zone
    (filterWindow (trendsWindow period today).1 today (joinedRecords store))

/-- Insert into a sorted list, keeping elements that compare ahead. -/
def insertBy (le : α → α → Bool) (a : α) : List α → List α
  | [] => [a]
  | b :: t => if le a b then a :: b :: t else b :: insertBy le a t

/-- Insertion sort, modelling `sorted(...)` / SQL `ORDER BY`. -/
def sortBy (le : α → α → Bool) : List α → List α
  | [] => []
  | a :: t => insertBy le a (sortBy le t)

/-- One element of the trends response. -/
structure TrendEntry where
  date : String
  attendance : Int
  visitors : Int
  offering : ℚ
  decisions : Int
  services : Nat
deriving DecidableEq, Repr

/-- The `analytics_trends` handler (src/app.py lines 431-496): bucket the
selected records by date key, then emit the buckets sorted ascending by key
(`sorted(trends.items())`). -/
def analyticsTrends (store : Store) (today : Date) (periodParam : Option String)
    (zoneFilter : String) : List TrendEntry :=
  let period := periodParam.getD "week"
  let pairs := trendsSelect store today period zoneFilter
  let buckets := groupAccum (fun p => trendsDateKey period p.1.service_date)
    (fun p => recContrib p.1) pairs
  (sortBy (fun a b => decide (a.1 ≤ b.1)) buckets).map fun p =>
    ⟨p.1, p.2.attendance, p.2.visitors, p.2.offering, p.2.decisions, p.2.services⟩

/-- One element of `GET /api/recent-submissions` (src/app.py lines 901-920),
carrying the joined leader's name/zone and the effective-metric projection.
The source calls `strftime` on the nullable `submitted_at` column (it would
raise on NULL; every creation path sets the column), modelled by mapping
over the option. -/
structure RecentEntry where
  id : Int
  leader_name : String
  leader_zone : String
  service_type : String
  service_date : String
  attendance : Int
  visitors : Int
  offering : ℚ
  decisions : Int
  notes : Option String
  submitted_at : Option String
deriving DecidableEq, Repr

/-- The per-record projection of the recent-submissions listing. -/
def recentEntry (r : ServiceRecord) (l : Leader) : RecentEntry :=
  { id := r.id
    leader_name := l.name
    leader_zone := l.zone
    service_type := r.service_type
    service_date := fmtYMD r.service_date
    attendance := if r.service_type == "sunday" then r.sunday_attendance else r.cell_attendance
    visitors := if r.service_type == "sunday" then r.sunday_visitors else r.cell_visitors
    offering := if r.service_type == "cell" then r.cell_offering else 0
    decisions := if r.service_type == "cell" then r.cell_decisions else 0
    notes := r.notes
    submitted_at := r.submitted_at.map fmtHM }

/-- Ordering used by `order_by(ServiceRecord.submitted_at.desc())`; a NULL
timestamp sorts after every value under SQL descending order. -/
def dtOptLe (a b : Option DateTime) : Bool :=
  match a, b with
  | none, _ => true
  | some _, none => false
  | some x, some y => dtLe x y

/-- The `recent_submissions` handler: joined records, most recent first,
capped at 20. -/
def recentSubmissions (store : Store) : List RecentEntry :=
  (((sortBy (fun a b => dtOptLe b.1.submitted_at a.1.submitted_at)
      (joinedRecords store)).take 20).map
    fun p => recentEntry p.1 p.2)

/-- One CSV cell as handed to `csv.writer`: the source passes strings,
ints, and the float offering, which the writer stringifies. -/
inductive CsvCell where
  | s (v : String)
  | i (v : Int)
  | q (v : ℚ)
deriving DecidableEq, Repr

/-- The fixed header row of the CSV export (src/app.py lines 950-964). -/
def csvHeader : List CsvCell :=
  [.s "ID", .s "Leader Name", .s "Zone", .s "Service Type", .s "Service Date",
   .s "Attendance", .s "Visitors", .s "Offering (ZAR)", .s "Decisions",
   .s "Notes", .s "Submitted At"]

/-- One data row of the CSV export (src/app.py lines 966-992): the "sunday"
branch writes the sunday metrics and integer-literal zeros for offering and
decisions; every other service type writes the cell metrics.  `notes or ""`
renders a missing note as the empty string.  The source calls `.strftime`
on `submitted_at` directly, which raises on a NULL timestamp; `exportCsv`
below therefore emits no CSV at all in that case, so this row builder is
only ever applied to records with a present timestamp (the `.getD ""`
branch is unreachable from the endpoint). -/
def csvRow (r : ServiceRecord) (l : Leader) : List CsvCell :=
  if r.service_type == "sunday" then
    [.i r.id, .s l.name, .s l.zone, .s r.service_type, .s (fmtYMD r.service_date),
     .i r.sunday_attendance, .i r.sunday_visitors, .i 0, .i 0,
     .s (r.notes.getD ""), .s ((r.submitted_at.map fmtHM).getD "")]
  else
    [.i r.id, .s l.name, .s l.zone, .s r.service_type, .s (fmtYMD r.service_date),
     .i r.cell_attendance, .i r.cell_visitors, .q r.cell_offering, .i r.cell_decisions,
     .s (r.notes.getD ""), .s ((r.submitted_at.map fmtHM).getD "")]

/-- The record selection of the CSV export: joined records ordered by
service date descending, then the optional inclusive date bounds and the
optional zone filter. -/
def csvSelect (store : Store) (sd ed : Option Date) (zone : String) :
    List (ServiceRecord × Leader) :=
  let q := sortBy (fun a b => dateLe b.1.service_date a.1.service_date)
    (joinedRecords store)
  let q := match sd with
    | none => q
    | some d => q.filter fun p => dateLe d p.1.service_date
  let q := match ed with
    | none => q
    | some d => q.filter fun p => dateLe p.1.service_date d
  if zone == "" then q else q.filter fun p => p.2.zone == zone

/-- The `export_csv` handler (src/app.py lines 925-999): parse the optional
date-bound parameters with `strptime` (an unparseable bound raises, so the
request produces no CSV), then emit the header row followed by one data row
per selected record.  If any selected record has a NULL `submitted_at`, the
`strftime` call on it raises with no try/except, the request aborts and no
CSV is produced. -/
def exportCsv (store : Store) (sdParam edParam : Option String) (zone : String) :
    Option (List (List CsvCell)) :=
  match (match sdParam with
         | none => some none
         | some str => (parseYMD str).map some : Option (Option Date)) with
  | none => none
  | some sd =>
    match (match edParam with
           | none => some none
           | some str => (parseYMD str).map some : Option (Option Date)) with
    | none => none
    | some ed =>
      if (csvSelect store sd ed zone).all fun p => p.1.submitted_at.isSome then
        some (csvHeader :: (csvSelect store sd ed zone).map fun p => csvRow p.1 p.2)
      else none

/-- One element of the `leaders` array of a backup/restore JSON document.
Presence is modelled the way the restore code reads each key: `[k]` access
is a plain `Option`; `.get(k, default)` where a JSON null and an absent key
behave differently is `Option (Option _)` (outer: key present?, inner: the
value or null); keys where null and absent act identically are collapsed
into one `Option`. -/
structure LeaderEntry where
  id : Option Int
  name : Option String
  zone : Option String
  cell_day : Option (Option String)
  contact_number : Option (Option String)
  email : Option (Option String)
  address : Option (Option String)
  profile_picture : Option String
  is_active : Option Bool
  created_at : Option String
  updated_at : Option String
deriving DecidableEq, Repr

/-- One element of the `service_records` array of a backup document. -/
structure RecordEntry where
  id : Option Int
  leader_id : Option Int
  service_type : Option String
  service_date : Option String
  sunday_attendance : Option Int
  sunday_visitors : Option Int
  cell_attendance : Option Int
  cell_visitors : Option Int
  cell_offering : Option ℚ
  cell_decisions : Option Int
  notes : Option (Option String)
  submitted_at : Option String
deriving DecidableEq, Repr

/-- The backup JSON document: top-level timestamp plus the two arrays
(read back with `data.get(key, [])`, so each array is optional). -/
structure BackupDoc where
  timestamp : Option String
  leaders : Option (List LeaderEntry)
  service_records : Option (List RecordEntry)
deriving DecidableEq, Repr

/-- Serialization of one leader by `backup_data` (src/app.py lines 590-609):
every key is present; the nullable timestamps serialize to `isoformat()` or
null. -/
def backupLeader (l : Leader) : LeaderEntry :=
  { id := some l.id
    name := some l.name
    zone := some l.zone
    cell_day := some l.cell_day
    contact_number := some l.contact_number
    email := some l.email
    address := some l.address
    profile_picture := l.profile_picture
    is_active := some l.is_active
    created_at := l.created_at.map fmtDT
    updated_at := l.updated_at.map fmtDT }

/-- Serialization of one service record by `backup_data` (lines 612-631). -/
def backupRecord (r : ServiceRecord) : RecordEntry :=
  { id := some r.id
    leader_id := some r.leader_id
    service_type := some r.service_type
    service_date := some (fmtYMD r.service_date)
    sunday_attendance := some r.sunday_attendance
    sunday_visitors := some r.sunday_visitors
    cell_attendance := some r.cell_attendance
    cell_visitors := some r.cell_visitors
    cell_offering := some r.cell_offering
    cell_decisions := some r.cell_decisions
    notes := some r.notes
    submitted_at := r.submitted_at.map fmtDT }

/-- The `backup_data` handler (src/app.py lines 583-646): a full JSON
snapshot of both tables, stamped with the current time. -/
def backupData (store : Store) (now : DateTime) : BackupDoc :=
  { timestamp := some (fmtDT now)
    leaders := some (store.leaders.map backupLeader)
    service_records := some (store.records.map backupRecord) }

/-- Python truthiness of a `.get(...)` result used for the timestamp keys:
absent keys, nulls and the empty string are all falsy. -/
def truthy (o : Option String) : Option String :=
  match o with
  | some str => if str == "" then none else some str
  | none => none

/-- Sequential processing of payload entries: the first raising entry aborts
the whole restore (the exception propagates to the handler's rollback). -/
def mapME (f : α → Except String β) : List α → Except String (List β)
  | [] => .ok []
  | a :: rest =>
    match f a with
    | .error e => .error e
    | .ok b =>
      match mapME f rest with
      | .error e => .error e
      | .ok bs => .ok (b :: bs)

/-- Restoration of a timestamp column: a truthy value is parsed with
`fromisoformat` (raising on garbage); a falsy one is skipped, so the
column default `datetime.utcnow` fires at insert time. -/
def restoreTimestamp (now : DateTime) (field : Option String) :
    Except String (Option DateTime) :=
  match truthy field with
  | some str =>
    match parseISO str with
    | some dt => .ok (some dt)
    | none => .error "ValueError: invalid isoformat string"
  | none => .ok (some now)

/-- Rebuilding one leader row from a payload entry (src/app.py lines
669-690): name/zone/id are required, the optional keys fall back to the
constructor defaults, and the timestamps are restored verbatim when truthy. -/
def restoreLeader (now : DateTime) (e : LeaderEntry) : Except String Leader :=
  match e.name with
  | none => .error "KeyError: name"
  | some name =>
    match e.zone with
    | none => .error "KeyError: zone"
    | some zone =>
      match e.id with
      | none => .error "KeyError: id"
      | some id =>
        match restoreTimestamp now e.created_at with
        | .error m => .error m
        | .ok created =>
          match restoreTimestamp now e.updated_at with
          | .error m => .error m
          | .ok updated =>
            .ok { id := id
                  name := name
                  zone := zone
                  cell_day := e.cell_day.getD (some "Thursday")
                  contact_number := e.contact_number.getD (some "")
                  email := e.email.getD (some "")
                  address := e.address.getD (some "")
                  profile_picture := e.profile_picture
                  is_active := e.is_active.getD true
                  created_at := created
                  updated_at := updated }

/-- Rebuilding one service record from a payload entry (src/app.py lines
693-714): leader_id/service_type/service_date/id are required, the date is
parsed with `strptime` (raising on garbage), metrics default to zero. -/
def restoreRecord (now : DateTime) (e : RecordEntry) : Except String ServiceRecord :=
  match e.leader_id with
  | none => .error "KeyError: leader_id"
  | some lid =>
    match e.service_type with
    | none => .error "KeyError: service_type"
    | some ty =>
      match e.service_date with
      | none => .error "KeyError: service_date"
      | some ds =>
        match parseYMD ds with
        | none => .error "ValueError: time data does not match format"
        | some date =>
          match e.id with
          | none => .error "KeyError: id"
          | some id =>
            match restoreTimestamp now e.submitted_at with
            | .error m => .error m
            | .ok submitted =>
              .ok { id := id
                    leader_id := lid
                    service_type := ty
                    service_date := date
                    sunday_attendance := e.sunday_attendance.getD 0
                    sunday_visitors := e.sunday_visitors.getD 0
                    cell_attendance := e.cell_attendance.getD 0
                    cell_visitors := e.cell_visitors.getD 0
                    cell_offering := e.cell_offering.getD 0
                    cell_decisions := e.cell_decisions.getD 0
                    notes := e.notes.getD (some "")
                    submitted_at := submitted }

/-- The destructive body of the restore: delete everything, then insert all
payload leaders followed by all payload records.  All of it is pending
inside one transaction, so any raising entry aborts with no effect. -/
def restoreProcess (doc : BackupDoc) (now : DateTime) : Except String Store :=
  match mapME (restoreLeader now) (doc.leaders.getD []) with
  | .error m => .error m
  | .ok ls =>
    match mapME (restoreRecord now) (doc.service_records.getD []) with
    | .error m => .error m
    | .ok rs => .ok ⟨ls, rs⟩

/-- Python `str.endswith(suffix)`, computed on the character data. -/
def strEndsWith (s suffix : String) : Bool :=
  suffix.data.reverse.isPrefixOf s.data.reverse

/-- The uploaded file of `POST /api/restore-data`: its filename and the
result of `json.load` on its body (`none` models an unparseable payload). -/
structure UploadFile where
  filename : String
  content : Option BackupDoc
deriving DecidableEq, Repr

/-- Outcome of the restore endpoint. -/
inductive RestoreResult where
  | ok
  | err (msg : String)
deriving DecidableEq, Repr

/-- The `restore_data` handler (src/app.py lines 649-723): reject a missing
or unnamed upload, accept only filenames ending in ".json", parse, then
replace the whole store; every failure path rolls the transaction back,
leaving the pre-existing data untouched. -/
def restoreData (file : Option UploadFile) (store : Store) (now : DateTime) :
    Store × RestoreResult :=
  match file with
  | none => (store, .err "No file provided")
  | some f =>
    if f.filename == "" then (store, .err "No file selected")
    else if strEndsWith f.filename ".json" then
      match f.content with
      | none => (store, .err "Restore failed: invalid JSON")
      | some doc =>
        match restoreProcess doc now with
        | .ok s => (s, .ok)
        | .error m => (store, .err ("Restore failed: " ++ m))
    else (store, .err "Invalid file format")

/-- A payload entry of `POST /api/submit-totals` (`request.json`), one
`Option` per key the handler reads. -/
structure SubmitData where
  leader_id : Option Int
  service_type : Option String
  service_date : Option String
  notes : Option String
  sunday_attendance : Option Int
  sunday_visitors : Option Int
  cell_attendance : Option Int
  cell_visitors : Option Int
  cell_offering : Option ℚ
  cell_decisions : Option Int
deriving DecidableEq, Repr

/-- Outcome of the submit endpoint: the new record id, or the 400 error
the handler's `except` clause produces after rollback. -/
inductive SubmitResult where
  | ok (record_id : Int)
  | err
deriving DecidableEq, Repr

/-- The primary key the database assigns to a fresh row: one more than the
largest id in the table. -/
def nextRecordId (store : Store) : Int :=
  (store.records.map fun r => r.id).foldr max 0 + 1

/-- The `submit_totals` handler (src/app.py lines 727-764): requires
leader_id, service_type and a parseable service_date; the "sunday" branch
additionally requires sunday_attendance, every other branch requires
cell_attendance; the remaining metrics default.  On success the record is
persisted with a fresh id and `submitted_at := now` and the id returned;
any raise rolls back, leaving the store unchanged. -/
def submitTotals (d : SubmitData) (store : Store) (now : DateTime) :
    Store × SubmitResult :=
  match d.leader_id, d.service_type, d.service_date with
  | some lid, some ty, some ds =>
    match parseYMD ds with
    | none => (store, .err)
    | some date =>
      let base : ServiceRecord :=
        { id := nextRecordId store
          leader_id := lid
          service_type := ty
          service_date := date
          sunday_attendance := 0
          sunday_visitors := 0
          cell_attendance := 0
          cell_visitors := 0
          cell_offering := 0
          cell_decisions := 0
          notes := some (d.notes.getD "")
          submitted_at := some now }
      if ty == "sunday" then
        match d.sunday_attendance with
        | none => (store, .err)
        | some sa =>
          let r := { base with
            sunday_attendance := sa
            sunday_visitors := d.sunday_visitors.getD 0 }
          ({ store with records := store.records ++ [r] }, .ok r.id)
      else
        match d.cell_attendance with
        | none => (store, .err)
        | some ca =>
          let r := { base with
            cell_attendance := ca
            cell_visitors := d.cell_visitors.getD 0
            cell_offering := d.cell_offering.getD 0
            cell_decisions := d.cell_decisions.getD 0 }
          ({ store with records := store.records ++ [r] }, .ok r.id)
  | _, _, _ => (store, .err)

/-- The failure condition of `submit_totals` over this payload model, read
off its field accesses: a missing required key or an unparseable date
raises.  (Keys present with a JSON null are outside this typed payload: a
null leader_id/service_type/service_date also fails — NOT NULL constraint
or a strptime TypeError — while a null metric value is stored as SQL NULL.) -/
def submitMissing (d : SubmitData) : Bool :=
  d.leader_id.isNone || d.service_type.isNone ||
  (match d.service_date with
   | none => true
   | some str => (parseYMD str).isNone) ||
  (match d.service_type with
   | none => true
   | some t => if t == "sunday" then d.sunday_attendance.isNone else d.cell_attendance.isNone)

/-- A backup document misses a field the restore code unconditionally
indexes on some entry. -/
def requiredMissing (doc : BackupDoc) : Bool :=
  ((doc.leaders.getD []).any fun e => e.name.isNone || e.zone.isNone || e.id.isNone) ||
  ((doc.service_records.getD []).any fun e =>
    e.leader_id.isNone || e.service_type.isNone || e.service_date.isNone || e.id.isNone)

/-- Every timestamp of a leader row is present and a representable
`datetime` value. -/
def wfLeader (l : Leader) : Bool :=
  (match l.created_at with
   | some t => decide (ValidDateTime t)
   | none => false) &&
  (match l.updated_at with
   | some t => decide (ValidDateTime t)
   | none => false)

/-- The record's date is representable and its submission timestamp is set. -/
def wfRecord (r : ServiceRecord) : Bool :=
  decide (ValidDate r.service_date) &&
  (match r.submitted_at with
   | some t => decide (ValidDateTime t)
   | none => false)

/-- Store states whose dates are representable `datetime` values and whose
timestamp columns are all non-NULL — every state the application itself
produces satisfies this, since the column defaults always fire. -/
def wfStore (s : Store) : Bool :=
  s.leaders.all wfLeader && s.records.all wfRecord

/-- Sample leader used by the concrete evaluations. -/
def zLeader : Leader :=
  { id := 1
    name := "Leader 1"
    zone := "Chestnut"
    cell_day := some "Thursday"
    contact_number := some ""
    email := some ""
    address := some ""
    profile_picture := none
    is_active := true
    created_at := some ⟨⟨2024, 1, 1⟩, 8, 30, 0, 0⟩
    updated_at := some ⟨⟨2024, 1, 1⟩, 8, 30, 0, 0⟩ }

/-- Sample cell-meeting record used by the concrete evaluations. -/
def zRecordCell : ServiceRecord :=
  { id := 1
    leader_id := 1
    service_type := "cell"
    service_date := ⟨2024, 3, 5⟩
    sunday_attendance := 0
    sunday_visitors := 0
    cell_attendance := 20
    cell_visitors := 3
    cell_offering := 150
    cell_decisions := 2
    notes := some ""
    submitted_at := some ⟨⟨2024, 3, 5⟩, 19, 0, 0, 0⟩ }

/-- Sample sunday record with nonzero stored cell metrics. -/
def zRecordSunday : ServiceRecord :=
  { id := 2
    leader_id := 1
    service_type := "sunday"
    service_date := ⟨2024, 3, 10⟩
    sunday_attendance := 120
    sunday_visitors := 7
    cell_attendance := 11
    cell_visitors := 4
    cell_offering := 500
    cell_decisions := 9
    notes := none
    submitted_at := some ⟨⟨2024, 3, 10⟩, 13, 45, 0, 0⟩ }

/-- Sample store used by the concrete evaluations. -/
def zStore : Store := ⟨[zLeader], [zRecordCell]⟩

/-- Sample complete cell submission payload. -/
def zSubmit : SubmitData :=
  ⟨some 1, some "cell", some "2024-01-04", some "", none, none, some 20, some 3, some 150, some 2⟩

/-- Sample cell submission payload whose cell_attendance key is absent. -/
def zSubmitNoAttendance : SubmitData :=
  ⟨some 1, some "cell", some "2024-01-04", none, none, none, none, none, none, none⟩

/-- Sample leader whose created_at column is NULL. -/
def zLeaderNullTs : Leader := { zLeader with created_at := none }

theorem digitVal_digitChar : ∀ n, n < 10 → digitVal (Nat.digitChar n) = some n := by
  decide

theorem parse2_print2 (n : Nat) (h : n ≤ 99) :
    parse2 (Nat.digitChar (n / 10 % 10)) (Nat.digitChar (n % 10)) = some n := by
  rw [parse2, digitVal_digitChar _ (Nat.mod_lt _ (by norm_num)),
    digitVal_digitChar _ (Nat.mod_lt _ (by norm_num))]
  show some (n / 10 % 10 * 10 + n % 10) = some n
  congr 1
  omega

theorem parse4_print4 (n : Nat) (h : n ≤ 9999) :
    parse4 (Nat.digitChar (n / 1000 % 10)) (Nat.digitChar (n / 100 % 10))
      (Nat.digitChar (n / 10 % 10)) (Nat.digitChar (n % 10)) = some n := by
  rw [parse4, digitVal_digitChar _ (Nat.mod_lt _ (by norm_num)),
    digitVal_digitChar _ (Nat.mod_lt _ (by norm_num)),
    digitVal_digitChar _ (Nat.mod_lt _ (by norm_num)),
    digitVal_digitChar _ (Nat.mod_lt _ (by norm_num))]
  show some (((n / 1000 % 10 * 10 + n / 100 % 10) * 10 + n / 10 % 10) * 10 + n % 10) = some n
  congr 1
  omega

theorem parse6_print6 (n : Nat) (h : n < 1000000) :
    parse6 (Nat.digitChar (n / 100000 % 10)) (Nat.digitChar (n / 10000 % 10))
      (Nat.digitChar (n / 1000 % 10)) (Nat.digitChar (n / 100 % 10))
      (Nat.digitChar (n / 10 % 10)) (Nat.digitChar (n % 10)) = some n := by
  have h4 : parse4 (Nat.digitChar (n / 100000 % 10)) (Nat.digitChar (n / 10000 % 10))
      (Nat.digitChar (n / 1000 % 10)) (Nat.digitChar (n / 100 % 10)) = some (n / 100) := by
    have e1 : n / 100000 % 10 = n / 100 / 1000 % 10 := by omega
    have e2 : n / 10000 % 10 = n / 100 / 100 % 10 := by omega
    have e3 : n / 1000 % 10 = n / 100 / 10 % 10 := by omega
    have e4 : n / 100 % 10 = n / 100 % 10 := rfl
    rw [e1, e2, e3]
    exact parse4_print4 (n / 100) (by omega)
  have e5 : n / 10 % 10 = n % 100 / 10 % 10 := by omega
  have e6 : n % 10 = n % 100 % 10 := by omega
  rw [parse6, h4, e5, e6, parse2_print2 (n % 100) (by omega)]
  show some (n / 100 * 100 + n % 100) = some n
  congr 1
  omega

theorem digitChar_lt_isDigit : ∀ n, n < 10 → (Nat.digitChar n).isDigit = true := by
  decide

theorem digitChar_lt_not_dash : ∀ n, n < 10 → ¬ Nat.digitChar n = '-' := by
  decide

theorem digitChar_lt_toNat : ∀ n, n < 10 → (Nat.digitChar n).toNat - 48 = n := by
  decide

theorem digitChar_mod_isDigit (n : Nat) : (Nat.digitChar (n % 10)).isDigit = true :=
  digitChar_lt_isDigit _ (Nat.mod_lt _ (by norm_num))

theorem digitChar_mod_not_dash (n : Nat) : ¬ Nat.digitChar (n % 10) = '-' :=
  digitChar_lt_not_dash _ (Nat.mod_lt _ (by norm_num))

theorem digitChar_mod_toNat (n : Nat) : (Nat.digitChar (n % 10)).toNat - 48 = n % 10 :=
  digitChar_lt_toNat _ (Nat.mod_lt _ (by norm_num))

theorem splitDash_sep (g : List Char) (hg : ∀ c ∈ g, ¬ c = '-') (rest : List Char) :
    splitDash (g ++ '-' :: rest) = g :: splitDash rest := by
  induction g with
  | nil => simp [splitDash]
  | cons c t ih =>
    have hc : ¬ c = '-' := hg c (List.mem_cons_self c t)
    rw [List.cons_append]
    simp [splitDash, hc, ih fun x hx => hg x (List.mem_cons_of_mem c hx)]

theorem splitDash_noSep (g : List Char) (hg : ∀ c ∈ g, ¬ c = '-') :
    splitDash g = [g] := by
  induction g with
  | nil => rfl
  | cons c t ih =>
    have hc : ¬ c = '-' := hg c (List.mem_cons_self c t)
    simp [splitDash, hc, ih fun x hx => hg x (List.mem_cons_of_mem c hx)]

theorem print4_not_dash (y : Nat) : ∀ c ∈ print4 y, ¬ c = '-' := by
  intro c hc
  simp only [print4, List.mem_cons, List.not_mem_nil, or_false] at hc
  rcases hc with rfl | rfl | rfl | rfl <;> exact digitChar_mod_not_dash _

theorem print2_not_dash (n : Nat) : ∀ c ∈ print2 n, ¬ c = '-' := by
  intro c hc
  simp only [print2, List.mem_cons, List.not_mem_nil, or_false] at hc
  rcases hc with rfl | rfl <;> exact digitChar_mod_not_dash _

theorem digitsToNat_print4 (y : Nat) (h : y ≤ 9999) : digitsToNat (print4 y) = y := by
  simp only [digitsToNat, print4, List.foldl_cons, List.foldl_nil, digitChar_mod_toNat]
  omega

theorem digitsToNat_print2 (n : Nat) (h : n ≤ 99) : digitsToNat (print2 n) = n := by
  simp only [digitsToNat, print2, List.foldl_cons, List.foldl_nil, digitChar_mod_toNat]
  omega

theorem print4_all_digits (y : Nat) : (print4 y).all Char.isDigit = true := by
  simp [print4, digitChar_mod_isDigit]

theorem print2_all_digits (n : Nat) : (print2 n).all Char.isDigit = true := by
  simp [print2, digitChar_mod_isDigit]

theorem print4_length (y : Nat) : (print4 y).length = 4 := rfl

theorem print2_length (n : Nat) : (print2 n).length = 2 := rfl

theorem parseYMD_fmtYMD (d : Date) (h : ValidDate d) : parseYMD (fmtYMD d) = some d := by
  obtain ⟨y, m, dd⟩ := d
  have hv : validYMD y m dd = true := h
  have hy : y ≤ 9999 := by
    simp only [validYMD, Bool.and_eq_true, decide_eq_true_eq] at hv; omega
  have hm : m ≤ 99 := by
    simp only [validYMD, Bool.and_eq_true, decide_eq_true_eq] at hv; omega
  have hd : dd ≤ 99 := by
    have h31 : daysInMonth y m ≤ 31 := by
      unfold daysInMonth; split
      · split <;> omega
      · split <;> omega
    simp only [validYMD, Bool.and_eq_true, decide_eq_true_eq] at hv; omega
  have hsplit : splitDash (print4 y ++ '-' :: (print2 m ++ '-' :: print2 dd))
      = [print4 y, print2 m, print2 dd] := by
    rw [splitDash_sep _ (print4_not_dash y), splitDash_sep _ (print2_not_dash m),
      splitDash_noSep _ (print2_not_dash dd)]
  show parseYMD (String.mk (print4 y ++ '-' :: (print2 m ++ '-' :: print2 dd))) = _
  simp only [parseYMD, hsplit]
  simp [print4_length, print2_length, print4_all_digits, print2_all_digits,
    digitsToNat_print4 y hy, digitsToNat_print2 m hm, digitsToNat_print2 dd hd, hv]

theorem fmtYMD_ne_empty (d : Date) : (fmtYMD d == "") = false := by
  simp [fmtYMD, print4, String.ext_iff]

theorem fmtDT_ne_empty (t : DateTime) : (fmtDT t == "") = false := by
  simp [fmtDT, print4, String.ext_iff]

theorem parseISO_fmtDT (t : DateTime) (h : ValidDateTime t) : parseISO (fmtDT t) = some t := by
  obtain ⟨⟨y, m, dd⟩, hh, mi, se, us⟩ := t
  have hv : validYMD y m dd = true := h.1
  have hhour : hh < 24 := h.2.1
  have hmin : mi < 60 := h.2.2.1
  have hsec : se < 60 := h.2.2.2.1
  have husec : us < 1000000 := h.2.2.2.2
  have hy : y ≤ 9999 := by
    simp only [validYMD, Bool.and_eq_true, decide_eq_true_eq] at hv; omega
  have hm : m ≤ 99 := by
    simp only [validYMD, Bool.and_eq_true, decide_eq_true_eq] at hv; omega
  have hd : dd ≤ 99 := by
    have h31 : daysInMonth y m ≤ 31 := by
      unfold daysInMonth; split
      · split <;> omega
      · split <;> omega
    simp only [validYMD, Bool.and_eq_true, decide_eq_true_eq] at hv; omega
  by_cases hus : us = 0
  · subst hus
    show parseISO (String.mk (print4 y ++ '-' :: print2 m ++ '-' :: print2 dd
      ++ 'T' :: print2 hh ++ ':' :: print2 mi ++ ':' :: print2 se ++ [])) = _
    simp only [parseISO, print4, print2, List.cons_append, List.nil_append, List.append_nil]
    rw [parse4_print4 y hy, parse2_print2 m hm, parse2_print2 dd hd,
      parse2_print2 hh (by omega), parse2_print2 mi (by omega), parse2_print2 se (by omega)]
    simp [hv, hhour, hmin, hsec]
  · have hif : (if (us == 0) then ([] : List Char) else '.' :: print6 us)
        = '.' :: print6 us := by simp [hus]
    unfold fmtDT
    rw [hif]
    simp only [parseISO, print4, print2, print6, List.cons_append, List.nil_append,
      List.append_nil]
    rw [parse4_print4 y hy, parse2_print2 m hm, parse2_print2 dd hd,
      parse2_print2 hh (by omega), parse2_print2 mi (by omega), parse2_print2 se (by omega)]
    have h6 := parse6_print6 us husec
    simp only [print6] at h6
    rw [h6]
    simp [hv, hhour, hmin, hsec]

theorem insertBy_perm (le : α → α → Bool) (a : α) (l : List α) :
    (insertBy le a l).Perm (a :: l) := by
  induction l with
  | nil => exact List.Perm.refl _
  | cons b t ih =>
    by_cases h : le a b = true
    · simp only [insertBy, h, if_true]
      exact List.Perm.refl _
    · simp only [insertBy, h, if_false, Bool.false_eq_true]
      exact (ih.cons b).trans (List.Perm.swap a b t)

theorem sortBy_perm (le : α → α → Bool) (l : List α) : (sortBy le l).Perm l := by
  induction l with
  | nil => exact List.Perm.refl _
  | cons a t ih => exact (insertBy_perm le a (sortBy le t)).trans (ih.cons a)

theorem sumBy_bumpAdd {M : Type} [AddCommMonoid M] (f : Stat → M)
    (hf : ∀ a b, f (Stat.add a b) = f a + f b) (k : String) (s : Stat)
    (l : List (String × Stat)) :
    ((bumpAdd k s l).map fun p => f p.2).sum = ((l.map fun p => f p.2).sum) + f s := by
  induction l with
  | nil => simp [bumpAdd]
  | cons p rest ih =>
    obtain ⟨k2, t⟩ := p
    by_cases h : (k2 == k) = true
    · simp only [bumpAdd, h, if_true, List.map_cons, List.sum_cons, hf]
      abel
    · simp only [bumpAdd, h, if_false, Bool.false_eq_true, List.map_cons, List.sum_cons, ih]
      abel

theorem sumBy_groupAccum_aux {M : Type} [AddCommMonoid M] (f : Stat → M)
    (hf : ∀ a b, f (Stat.add a b) = f a + f b) (key : α → String) (contrib : α → Stat)
    (xs : List α) :
    ∀ acc : List (String × Stat),
      ((xs.foldl (fun a x => bumpAdd (key x) (contrib x) a) acc).map fun p => f p.2).sum
        = ((acc.map fun p => f p.2).sum) + (xs.map fun x => f (contrib x)).sum := by
  induction xs with
  | nil => intro acc; simp
  | cons x rest ih =>
    intro acc
    simp only [List.foldl_cons, List.map_cons, List.sum_cons, ih, sumBy_bumpAdd f hf]
    abel

theorem sumBy_groupAccum {M : Type} [AddCommMonoid M] (f : Stat → M)
    (hf : ∀ a b, f (Stat.add a b) = f a + f b) (key : α → String) (contrib : α → Stat)
    (xs : List α) :
    ((groupAccum key contrib xs).map fun p => f p.2).sum
      = (xs.map fun x => f (contrib x)).sum := by
  simpa using sumBy_groupAccum_aux f hf key contrib xs []

theorem sum_filter_cell {M : Type} [AddCommMonoid M] (g : ServiceRecord → M)
    (l : List ServiceRecord) :
    ((l.filter fun r => r.service_type == "cell").map g).sum
      = (l.map fun r => if r.service_type == "cell" then g r else 0).sum := by
  induction l with
  | nil => simp
  | cons r rest ih =>
    by_cases h : r.service_type = "cell"
    · simp [List.filter_cons, h, ih]
    · simp [List.filter_cons, h, ih]

theorem sum_map_one (l : List α) : (l.map fun _ => (1 : ℕ)).sum = l.length := by
  induction l with
  | nil => rfl
  | cons a t ih => simp [ih, Nat.add_comm]

theorem totalAttendance_pairs (pairs : List (ServiceRecord × Leader)) :
    totalAttendance (pairs.map fun p => p.1)
      = (pairs.map fun p => (recContrib p.1).attendance).sum := by
  simp only [totalAttendance, List.map_map]
  rfl

theorem totalVisitors_pairs (pairs : List (ServiceRecord × Leader)) :
    totalVisitors (pairs.map fun p => p.1)
      = (pairs.map fun p => (recContrib p.1).visitors).sum := by
  simp only [totalVisitors, List.map_map]
  rfl

theorem totalOffering_pairs (pairs : List (ServiceRecord × Leader)) :
    totalOffering (pairs.map fun p => p.1)
      = (pairs.map fun p => (recContrib p.1).offering).sum := by
  rw [totalOffering, sum_filter_cell]
  simp only [List.map_map]
  rfl

theorem totalDecisions_pairs (pairs : List (ServiceRecord × Leader)) :
    totalDecisions (pairs.map fun p => p.1)
      = (pairs.map fun p => (recContrib p.1).decisions).sum := by
  rw [totalDecisions, sum_filter_cell]
  simp only [List.map_map]
  rfl

/-- C3: each flat total of the overview equals the sum of the corresponding
accumulator over all of its own per-zone groups. -/
theorem overview_totals_match_zone_groups (store : Store) (today : Date)
    (periodParam : Option String) (zoneFilter : String) (leaderIdFilter : Option Int) :
    ((analyticsOverview store today periodParam zoneFilter leaderIdFilter).zone_stats.map
        fun q => q.2.attendance).sum
      = (analyticsOverview store today periodParam zoneFilter leaderIdFilter).total_attendance
    ∧ ((analyticsOverview store today periodParam zoneFilter leaderIdFilter).zone_stats.map
        fun q => q.2.visitors).sum
      = (analyticsOverview store today periodParam zoneFilter leaderIdFilter).total_visitors
    ∧ ((analyticsOverview store today periodParam zoneFilter leaderIdFilter).zone_stats.map
        fun q => q.2.offering).sum
      = (analyticsOverview store today periodParam zoneFilter leaderIdFilter).total_offering
    ∧ ((analyticsOverview store today periodParam zoneFilter leaderIdFilter).zone_stats.map
        fun q => q.2.decisions).sum
      = (analyticsOverview store today periodParam zoneFilter leaderIdFilter).total_decisions := by
  refine ⟨?_, ?_, ?_, ?_⟩
  · simp only [analyticsOverview]
    rw [sumBy_groupAccum (fun s => s.attendance) (fun a b => rfl), totalAttendance_pairs]
  · simp only [analyticsOverview]
    rw [sumBy_groupAccum (fun s => s.visitors) (fun a b => rfl), totalVisitors_pairs]
  · simp only [analyticsOverview]
    rw [sumBy_groupAccum (fun s => s.offering) (fun a b => rfl), totalOffering_pairs]
  · simp only [analyticsOverview]
    rw [sumBy_groupAccum (fun s => s.decisions) (fun a b => rfl), totalDecisions_pairs]

/-- C10: every selected record lands in exactly one zone group, so the
per-zone service counters sum to the total record count. -/
theorem overview_zone_services_partition (store : Store) (today : Date)
    (periodParam : Option String) (zoneFilter : String) (leaderIdFilter : Option Int) :
    ((analyticsOverview store today periodParam zoneFilter leaderIdFilter).zone_stats.map
        fun q => q.2.services).sum
      = (analyticsOverview store today periodParam zoneFilter leaderIdFilter).total_records := by
  simp only [analyticsOverview]
  rw [sumBy_groupAccum (fun s => s.services) (fun a b => rfl)]
  simp only [List.length_map]
  exact sum_map_one _

theorem trends_map_sum {M : Type} [AddCommMonoid M] (g : Stat → M)
    (hg : ∀ a b, g (Stat.add a b) = g a + g b) (gT : TrendEntry → M)
    (hgt : ∀ (k : String) (s : Stat),
      gT ⟨k, s.attendance, s.visitors, s.offering, s.decisions, s.services⟩ = g s)
    (store : Store) (today : Date) (periodParam : Option String) (zoneFilter : String) :
    ((analyticsTrends store today periodParam zoneFilter).map gT).sum
      = ((trendsSelect store today (periodParam.getD "week") zoneFilter).map
          fun p => g (recContrib p.1)).sum := by
  simp only [analyticsTrends, List.map_map]
  have hcomp : (gT ∘ fun p : String × Stat =>
      (⟨p.1, p.2.attendance, p.2.visitors, p.2.offering, p.2.decisions, p.2.services⟩ :
        TrendEntry)) = fun p : String × Stat => g p.2 :=
    funext fun p => hgt p.1 p.2
  rw [hcomp, List.Perm.sum_eq ((sortBy_perm _ _).map _)]
  exact sumBy_groupAccum g hg _ _ _

theorem trendsSelect_eq_overviewSelect (store : Store) (today : Date)
    (period zone : String) :
    trendsSelect store today period zone = overviewSelect store today period zone none := by
  have hw : (trendsWindow period today).1 = overviewStart period today := by
    unfold trendsWindow overviewStart
    by_cases h1 : (period == "week") = true
    · simp [h1]
    · by_cases h2 : (period == "month") = true <;> simp [h1, h2]
  simp [trendsSelect, overviewSelect, applyLeader, hw]

/-- C4: each of the four metrics of the trends response, summed over all of
its buckets, equals the flat total the overview computes for the identical
period token and zone filter with no leader filter. -/
theorem trends_bucket_sums_match_overview (store : Store) (today : Date)
    (periodParam : Option String) (zoneFilter : String) :
    ((analyticsTrends store today periodParam zoneFilter).map fun e => e.attendance).sum
      = (analyticsOverview store today periodParam zoneFilter none).total_attendance
    ∧ ((analyticsTrends store today periodParam zoneFilter).map fun e => e.visitors).sum
      = (analyticsOverview store today periodParam zoneFilter none).total_visitors
    ∧ ((analyticsTrends store today periodParam zoneFilter).map fun e => e.offering).sum
      = (analyticsOverview store today periodParam zoneFilter none).total_offering
    ∧ ((analyticsTrends store today periodParam zoneFilter).map fun e => e.decisions).sum
      = (analyticsOverview store today periodParam zoneFilter none).total_decisions := by
  refine ⟨?_, ?_, ?_, ?_⟩
  · rw [trends_map_sum (fun s => s.attendance) (fun a b => rfl) _ (fun k s => rfl),
      trendsSelect_eq_overviewSelect]
    simp only [analyticsOverview]
    exact (totalAttendance_pairs _).symm
  · rw [trends_map_sum (fun s => s.visitors) (fun a b => rfl) _ (fun k s => rfl),
      trendsSelect_eq_overviewSelect]
    simp only [analyticsOverview]
    exact (totalVisitors_pairs _).symm
  · rw [trends_map_sum (fun s => s.offering) (fun a b => rfl) _ (fun k s => rfl),
      trendsSelect_eq_overviewSelect]
    simp only [analyticsOverview]
    exact (totalOffering_pairs _).symm
  · rw [trends_map_sum (fun s => s.decisions) (fun a b => rfl) _ (fun k s => rfl),
      trendsSelect_eq_overviewSelect]
    simp only [analyticsOverview]
    exact (totalDecisions_pairs _).symm

/-- C9: a request with no period parameter behaves exactly like
`period=week` — trailing 7-day window, daily bucketing — not like the
year-window fallback for unrecognized tokens. -/
theorem period_absent_defaults_to_week (store : Store) (today : Date)
    (zoneFilter : String) (leaderIdFilter : Option Int) :
    analyticsOverview store today none zoneFilter leaderIdFilter
        = analyticsOverview store today (some "week") zoneFilter leaderIdFilter
    ∧ analyticsTrends store today none zoneFilter
        = analyticsTrends store today (some "week") zoneFilter
    ∧ (analyticsOverview store today none zoneFilter leaderIdFilter).start_date
        = fmtYMD (subDays today 7)
    ∧ (∀ d, trendsDateKey ((none : Option String).getD "week") d = fmtYMD d) := by
  refine ⟨rfl, rfl, ?_, fun d => rfl⟩
  have hs : overviewStart "week" today = subDays today 7 := by simp [overviewStart]
  simp [analyticsOverview, hs]

/-- C5 (divergence witness): for the unrecognized token "all" the source
selects the year-length window and assigns `group_format = "%Y-%m"`
(monthly) for it, but the bucketing loop never reads `group_format` — it
re-tests `period == "year"` and emits a daily `YYYY-MM-DD` key. -/
theorem trends_fallback_key_is_daily :
    (trendsWindow "all" ⟨2024, 3, 20⟩).2 = "%Y-%m"
    ∧ analyticsTrends zStore ⟨2024, 3, 20⟩ (some "all") ""
        = [⟨"2024-03-05", 20, 3, 150, 2, 1⟩]
    ∧ trendsDateKey "all" ⟨2024, 3, 5⟩ = "2024-03-05"
    ∧ fmtYM ⟨2024, 3, 5⟩ = "2024-03" := by
  refine ⟨rfl, by decide, by decide, by decide⟩

/-- C2: a record with service_type "sunday" contributes an effective
offering and effective decisions of 0 at all four consuming sites — the
overview flat totals, the shared zone/leader/trends accumulator, the
recent-submissions listing and the CSV export — whatever its stored
cell_offering / cell_decisions values. -/
theorem sunday_zero_projections (r : ServiceRecord) (h : r.service_type = "sunday") :
    (∀ rs ts : List ServiceRecord, totalOffering (rs ++ r :: ts) = totalOffering (rs ++ ts))
    ∧ (∀ rs ts : List ServiceRecord, totalDecisions (rs ++ r :: ts) = totalDecisions (rs ++ ts))
    ∧ (recContrib r).offering = 0
    ∧ (recContrib r).decisions = 0
    ∧ (∀ l, (recentEntry r l).offering = 0 ∧ (recentEntry r l).decisions = 0)
    ∧ (∀ l, (csvRow r l).get? 7 = some (.i 0) ∧ (csvRow r l).get? 8 = some (.i 0)) := by
  have hc : r.service_type ≠ "cell" := by simp [h]
  refine ⟨fun rs ts => ?_, fun rs ts => ?_, ?_, ?_, fun l => ⟨?_, ?_⟩, fun l => ⟨?_, ?_⟩⟩
  · simp [totalOffering, List.filter_append, List.filter_cons, hc]
  · simp [totalDecisions, List.filter_append, List.filter_cons, hc]
  · simp [recContrib, hc]
  · simp [recContrib, hc]
  · simp [recentEntry, hc]
  · simp [recentEntry, hc]
  · simp [csvRow, h]
  · simp [csvRow, h]

theorem sunday_zero_projections_witness :
    (recContrib zRecordSunday).offering = 0 ∧ (recContrib zRecordSunday).decisions = 0 :=
  ⟨(sunday_zero_projections zRecordSunday rfl).2.2.1,
   (sunday_zero_projections zRecordSunday rfl).2.2.2.1⟩

theorem mem_le_foldr_max (x : Int) (l : List Int) (hx : x ∈ l) : x ≤ l.foldr max 0 := by
  induction l with
  | nil => cases hx
  | cons a t ih =>
    rcases List.mem_cons.mp hx with rfl | hm
    · exact le_max_left _ _
    · exact le_trans (ih hm) (le_max_right _ _)

/-- C7 (amended): submission fails when leader_id, service_type or
service_date is missing, service_date does not parse under
`strptime("%Y-%m-%d")`, or the branch-required attendance key
(sunday_attendance for "sunday", cell_attendance otherwise) is missing, and
every such failure leaves the store unchanged; every payload carrying those
keys and a parseable date succeeds, persisting a record with a fresh
identity and `submitted_at = now` and returning that identity. -/
theorem submit_validation (d : SubmitData) (store : Store) (now : DateTime) :
    (submitMissing d = true → submitTotals d store now = (store, .err))
    ∧ (submitMissing d = false →
       ∃ r, submitTotals d store now
            = ({ store with records := store.records ++ [r] }, .ok r.id)
         ∧ r.submitted_at = some now
         ∧ r.id ∉ store.records.map fun x => x.id) := by
  have hfresh : ∀ r : ServiceRecord, r.id = nextRecordId store →
      r.id ∉ store.records.map fun x => x.id := by
    intro r hr hmem
    have hle := mem_le_foldr_max _ _ hmem
    rw [nextRecordId] at hr
    omega
  rcases hL : d.leader_id with _ | lid
  · exact ⟨fun _ => by simp [submitTotals, hL], by simp [submitMissing, hL]⟩
  rcases hT : d.service_type with _ | ty
  · exact ⟨fun _ => by simp [submitTotals, hL, hT], by simp [submitMissing, hL, hT]⟩
  rcases hD : d.service_date with _ | ds
  · exact ⟨fun _ => by simp [submitTotals, hL, hT, hD],
      by simp [submitMissing, hL, hT, hD]⟩
  rcases hP : parseYMD ds with _ | date
  · exact ⟨fun _ => by simp [submitTotals, hL, hT, hD, hP],
      by simp [submitMissing, hL, hT, hD, hP]⟩
  by_cases hty : ty = "sunday"
  · subst hty
    rcases hA : d.sunday_attendance with _ | sa
    · exact ⟨fun _ => by simp [submitTotals, hL, hT, hD, hP, hA],
        by simp [submitMissing, hL, hT, hD, hP, hA]⟩
    · constructor
      · intro hmt
        simp [submitMissing, hL, hT, hD, hP, hA] at hmt
      · intro hmf
        refine ⟨⟨nextRecordId store, lid, "sunday", date, sa,
          d.sunday_visitors.getD 0, 0, 0, 0, 0,
          some (d.notes.getD ""), some now⟩, ?_, rfl, hfresh _ rfl⟩
        simp [submitTotals, hL, hT, hD, hP, hA]
  · have hbe : (ty == "sunday") = false := by simp [hty]
    rcases hA : d.cell_attendance with _ | ca
    · exact ⟨fun _ => by simp [submitTotals, hL, hT, hD, hP, hA, hbe],
        by simp [submitMissing, hL, hT, hD, hP, hA, hbe]⟩
    · constructor
      · intro hmt
        simp [submitMissing, hL, hT, hD, hP, hA, hbe] at hmt
      · intro hmf
        refine ⟨⟨nextRecordId store, lid, ty, date, 0, 0, ca,
          d.cell_visitors.getD 0, d.cell_offering.getD 0, d.cell_decisions.getD 0,
          some (d.notes.getD ""), some now⟩, ?_, rfl, hfresh _ rfl⟩
        simp [submitTotals, hL, hT, hD, hP, hA, hbe]

theorem submit_validation_witness :
    ∃ r, submitTotals zSubmit zStore ⟨⟨2024, 1, 5⟩, 10, 30, 0, 0⟩
        = ({ zStore with records := zStore.records ++ [r] }, .ok r.id)
      ∧ r.submitted_at = some ⟨⟨2024, 1, 5⟩, 10, 30, 0, 0⟩
      ∧ r.id ∉ zStore.records.map fun x => x.id :=
  (submit_validation zSubmit zStore ⟨⟨2024, 1, 5⟩, 10, 30, 0, 0⟩).2 (by decide)

/-- C7 counterexample: leader_id, service_type and a well-formed
service_date are all present, yet the submission fails, because the "cell"
branch unconditionally indexes `data["cell_attendance"]`. -/
theorem submit_validation_counterexample :
    submitTotals zSubmitNoAttendance zStore ⟨⟨2024, 1, 5⟩, 10, 30, 0, 0⟩
      = (zStore, .err) := by
  decide

theorem restoreLeader_missing (now : DateTime) (e : LeaderEntry)
    (h : (e.name.isNone || e.zone.isNone || e.id.isNone) = true) :
    ∃ m, restoreLeader now e = .error m := by
  rcases hn : e.name with _ | nm
  · exact ⟨"KeyError: name", by simp [restoreLeader, hn]⟩
  rcases hz : e.zone with _ | zo
  · exact ⟨"KeyError: zone", by simp [restoreLeader, hn, hz]⟩
  rcases hi : e.id with _ | i
  · exact ⟨"KeyError: id", by simp [restoreLeader, hn, hz, hi]⟩
  · rw [hn, hz, hi] at h
    simp at h

theorem restoreRecord_missing (now : DateTime) (e : RecordEntry)
    (h : (e.leader_id.isNone || e.service_type.isNone || e.service_date.isNone
      || e.id.isNone) = true) :
    ∃ m, restoreRecord now e = .error m := by
  rcases hl : e.leader_id with _ | lid
  · exact ⟨"KeyError: leader_id", by simp [restoreRecord, hl]⟩
  rcases ht : e.service_type with _ | ty
  · exact ⟨"KeyError: service_type", by simp [restoreRecord, hl, ht]⟩
  rcases hd : e.service_date with _ | ds
  · exact ⟨"KeyError: service_date", by simp [restoreRecord, hl, ht, hd]⟩
  rcases hp : parseYMD ds with _ | dt
  · exact ⟨"ValueError: time data does not match format",
      by simp [restoreRecord, hl, ht, hd, hp]⟩
  rcases hi : e.id with _ | i
  · exact ⟨"KeyError: id", by simp [restoreRecord, hl, ht, hd, hp, hi]⟩
  · rw [hl, ht, hd, hi] at h
    simp at h

theorem mapME_error (f : α → Except String β) (l : List α) (a : α) (ha : a ∈ l)
    (hf : ∃ m, f a = .error m) : ∃ m, mapME f l = .error m := by
  induction l with
  | nil => cases ha
  | cons x t ih =>
    rcases List.mem_cons.mp ha with rfl | hm
    · obtain ⟨m, hm2⟩ := hf
      exact ⟨m, by simp [mapME, hm2]⟩
    · rcases hx : f x with m2 | b
      · exact ⟨m2, by simp [mapME, hx]⟩
      · obtain ⟨m, hm2⟩ := ih hm
        exact ⟨m, by simp [mapME, hx, hm2]⟩

theorem restoreProcess_missing (doc : BackupDoc) (now : DateTime)
    (h : requiredMissing doc = true) : ∃ m, restoreProcess doc now = .error m := by
  rw [requiredMissing, Bool.or_eq_true] at h
  rcases h with h | h
  · rw [List.any_eq_true] at h
    obtain ⟨e, he, hfield⟩ := h
    obtain ⟨m, hm⟩ := mapME_error (restoreLeader now) _ e he
      (restoreLeader_missing now e (by simpa using hfield))
    exact ⟨m, by simp [restoreProcess, hm]⟩
  · rw [List.any_eq_true] at h
    obtain ⟨e, he, hfield⟩ := h
    obtain ⟨m, hm⟩ := mapME_error (restoreRecord now) _ e he
      (restoreRecord_missing now e (by simpa using hfield))
    rcases hls : mapME (restoreLeader now) (doc.leaders.getD []) with m2 | ls
    · exact ⟨m2, by simp [restoreProcess, hls]⟩
    · exact ⟨m, by simp [restoreProcess, hls, hm]⟩

/-- C6: restore fails — an unrecognized upload extension, an unparseable
payload, or a required field missing on any entry — and every such failure
leaves the pre-existing leaders and service records untouched. -/
theorem restore_rejects_and_preserves (u : UploadFile) (store : Store) (now : DateTime)
    (h : strEndsWith u.filename ".json" = false ∨ u.content = none
      ∨ ∃ doc, u.content = some doc ∧ requiredMissing doc = true) :
    (restoreData (some u) store now).1 = store
    ∧ (restoreData (some u) store now).2 ≠ .ok := by
  by_cases hempty : (u.filename == "") = true
  · constructor <;> simp [restoreData, hempty]
  · rcases h with h | h | ⟨doc, hdoc, hmiss⟩
    · constructor <;> simp [restoreData, hempty, h]
    · by_cases hj : strEndsWith u.filename ".json" = true
      · constructor <;> simp [restoreData, hempty, hj, h]
      · constructor <;> simp [restoreData, hempty, hj]
    · by_cases hj : strEndsWith u.filename ".json" = true
      · obtain ⟨m, hm⟩ := restoreProcess_missing doc now hmiss
        constructor <;> simp [restoreData, hempty, hj, hdoc, hm]
      · constructor <;> simp [restoreData, hempty, hj]

theorem restore_rejects_witness :
    (restoreData (some ⟨"backup.json", none⟩) zStore ⟨⟨2024, 4, 2⟩, 0, 0, 0, 0⟩).1 = zStore
    ∧ (restoreData (some ⟨"backup.json", none⟩) zStore ⟨⟨2024, 4, 2⟩, 0, 0, 0, 0⟩).2
      ≠ .ok :=
  restore_rejects_and_preserves ⟨"backup.json", none⟩ zStore ⟨⟨2024, 4, 2⟩, 0, 0, 0, 0⟩
    (Or.inr (Or.inl rfl))

/-- C8 (amended): a successful CSV export — which requires every selected
record to carry a submitted_at timestamp, since the source calls `strftime`
on that nullable column with no try/except, so a NULL aborts the request
with no CSV — is the fixed header row, whose 8th column the source names
"Offering (ZAR)", followed by one row per selected record carrying the
effective-metric projection, with a missing note rendered as the empty
string. -/
theorem csv_export_shape (store : Store) (sdParam edParam : Option String)
    (zone : String) (rows : List (List CsvCell))
    (h : exportCsv store sdParam edParam zone = some rows) :
    (∃ sd ed, ((csvSelect store sd ed zone).all fun p => p.1.submitted_at.isSome) = true
      ∧ rows = csvHeader :: (csvSelect store sd ed zone).map fun p => csvRow p.1 p.2)
    ∧ csvHeader = [.s "ID", .s "Leader Name", .s "Zone", .s "Service Type",
        .s "Service Date", .s "Attendance", .s "Visitors", .s "Offering (ZAR)",
        .s "Decisions", .s "Notes", .s "Submitted At"]
    ∧ (∀ r l t, r.service_type = "sunday" → r.submitted_at = some t →
        csvRow r l = [.i r.id, .s l.name, .s l.zone, .s r.service_type,
          .s (fmtYMD r.service_date), .i r.sunday_attendance, .i r.sunday_visitors,
          .i 0, .i 0, .s (r.notes.getD ""), .s (fmtHM t)])
    ∧ (∀ r l t, r.service_type ≠ "sunday" → r.submitted_at = some t →
        csvRow r l = [.i r.id, .s l.name, .s l.zone, .s r.service_type,
          .s (fmtYMD r.service_date), .i r.cell_attendance, .i r.cell_visitors,
          .q r.cell_offering, .i r.cell_decisions, .s (r.notes.getD ""),
          .s (fmtHM t)]) := by
  refine ⟨?_, rfl, ?_, ?_⟩
  · rcases sdParam with _ | sstr
    · rcases edParam with _ | estr
      · simp only [exportCsv] at h
        by_cases hall : ((csvSelect store none none zone).all
            fun p => p.1.submitted_at.isSome) = true
        · rw [if_pos hall] at h
          exact ⟨none, none, hall, (Option.some.inj h).symm⟩
        · rw [if_neg hall] at h
          cases h
      · rcases hp : parseYMD estr with _ | ed
        · simp only [exportCsv, hp, Option.map_none'] at h
          cases h
        · simp only [exportCsv, hp, Option.map_some'] at h
          by_cases hall : ((csvSelect store none (some ed) zone).all
              fun p => p.1.submitted_at.isSome) = true
          · rw [if_pos hall] at h
            exact ⟨none, some ed, hall, (Option.some.inj h).symm⟩
          · rw [if_neg hall] at h
            cases h
    · rcases hq : parseYMD sstr with _ | sd
      · simp only [exportCsv, hq, Option.map_none'] at h
        cases h
      · rcases edParam with _ | estr
        · simp only [exportCsv, hq, Option.map_some'] at h
          by_cases hall : ((csvSelect store (some sd) none zone).all
              fun p => p.1.submitted_at.isSome) = true
          · rw [if_pos hall] at h
            exact ⟨some sd, none, hall, (Option.some.inj h).symm⟩
          · rw [if_neg hall] at h
            cases h
        · rcases hp : parseYMD estr with _ | ed
          · simp only [exportCsv, hq, hp, Option.map_some', Option.map_none'] at h
            cases h
          · simp only [exportCsv, hq, hp, Option.map_some'] at h
            by_cases hall : ((csvSelect store (some sd) (some ed) zone).all
                fun p => p.1.submitted_at.isSome) = true
            · rw [if_pos hall] at h
              exact ⟨some sd, some ed, hall, (Option.some.inj h).symm⟩
            · rw [if_neg hall] at h
              cases h
  · intro r l t hs ht
    simp [csvRow, hs, ht]
  · intro r l t hs ht
    have hb : (r.service_type == "sunday") = false := by simp [hs]
    simp [csvRow, hb, ht]

theorem csv_export_shape_witness :
    csvHeader = [.s "ID", .s "Leader Name", .s "Zone", .s "Service Type",
      .s "Service Date", .s "Attendance", .s "Visitors", .s "Offering (ZAR)",
      .s "Decisions", .s "Notes", .s "Submitted At"] :=
  (csv_export_shape zStore none none ""
    (csvHeader :: (csvSelect zStore none none "").map fun p => csvRow p.1 p.2)
    (by rfl)).2.1

/-- C8 counterexample: the export of an empty store is just the header row,
and that header is not the column list the claim states — the source names
the offering column "Offering (ZAR)", not "Offering". -/
theorem csv_header_counterexample :
    exportCsv ⟨[], []⟩ none none "" = some [csvHeader]
    ∧ csvHeader ≠ [.s "ID", .s "Leader Name", .s "Zone", .s "Service Type",
        .s "Service Date", .s "Attendance", .s "Visitors", .s "Offering",
        .s "Decisions", .s "Notes", .s "Submitted At"] := by
  exact ⟨rfl, by decide⟩

theorem mapME_map (f : α → Except String β) (g : β → α) (xs : List β)
    (h : ∀ x ∈ xs, f (g x) = .ok x) : mapME f (xs.map g) = .ok xs := by
  induction xs with
  | nil => rfl
  | cons x t ih =>
    simp only [List.map_cons, mapME, h x (List.mem_cons_self x t),
      ih fun y hy => h y (List.mem_cons_of_mem x hy)]

theorem restoreTimestamp_roundtrip (now t : DateTime) (hv : ValidDateTime t) :
    restoreTimestamp now (some (fmtDT t)) = .ok (some t) := by
  simp [restoreTimestamp, truthy, fmtDT_ne_empty t, parseISO_fmtDT t hv]

theorem restoreLeader_roundtrip (now : DateTime) (l : Leader) (h : wfLeader l = true) :
    restoreLeader now (backupLeader l) = .ok l := by
  obtain ⟨id, nm, zo, cd, cn, em, ad, pp, ia, ca, ua⟩ := l
  rcases ca with _ | tc
  · simp [wfLeader] at h
  rcases ua with _ | tu
  · simp [wfLeader] at h
  simp only [wfLeader, Bool.and_eq_true, decide_eq_true_eq] at h
  obtain ⟨hvc, hvu⟩ := h
  simp [restoreLeader, backupLeader, restoreTimestamp_roundtrip now tc hvc,
    restoreTimestamp_roundtrip now tu hvu]

theorem restoreRecord_roundtrip (now : DateTime) (r : ServiceRecord)
    (h : wfRecord r = true) : restoreRecord now (backupRecord r) = .ok r := by
  obtain ⟨id, lid, ty, sdate, sa, sv, caa, cv, co, cdn, nt, sub⟩ := r
  rcases sub with _ | ts
  · simp [wfRecord] at h
  simp only [wfRecord, Bool.and_eq_true, decide_eq_true_eq] at h
  obtain ⟨hvd, hvs⟩ := h
  simp [restoreRecord, backupRecord, parseYMD_fmtYMD _ hvd,
    restoreTimestamp_roundtrip now ts hvs]

theorem restoreProcess_backup (store : Store) (now bnow : DateTime)
    (h : wfStore store = true) :
    restoreProcess (backupData store bnow) now = .ok store := by
  rw [wfStore, Bool.and_eq_true, List.all_eq_true, List.all_eq_true] at h
  obtain ⟨hl, hr⟩ := h
  have h1 : mapME (restoreLeader now) (store.leaders.map backupLeader)
      = .ok store.leaders :=
    mapME_map _ _ _ fun x hx => restoreLeader_roundtrip now x (hl x hx)
  have h2 : mapME (restoreRecord now) (store.records.map backupRecord)
      = .ok store.records :=
    mapME_map _ _ _ fun x hx => restoreRecord_roundtrip now x (hr x hx)
  simp [restoreProcess, backupData, h1, h2]

/-- C1 (amended): on every store whose timestamp columns are all non-NULL
and hold representable datetime values — which is every state the
application itself can produce — backing up and immediately restoring the
produced JSON document rebuilds exactly the original leaders and service
records, ids and timestamps included. -/
theorem backup_restore_roundtrip (store : Store) (now bnow : DateTime)
    (h : wfStore store = true) :
    restoreData (some ⟨"church_backup.json", some (backupData store bnow)⟩) store now
      = (store, .ok) := by
  have h1 : ("church_backup.json" == "") = false := by decide
  have h2 : strEndsWith "church_backup.json" ".json" = true := by decide
  simp [restoreData, h1, h2, restoreProcess_backup store now bnow h]

theorem backup_restore_roundtrip_witness :
    wfStore zStore = true
    ∧ restoreData (some ⟨"church_backup.json",
        some (backupData zStore ⟨⟨2024, 4, 1⟩, 9, 0, 0, 0⟩)⟩) zStore
        ⟨⟨2024, 4, 2⟩, 9, 0, 0, 0⟩ = (zStore, .ok) :=
  ⟨by decide, backup_restore_roundtrip zStore ⟨⟨2024, 4, 2⟩, 9, 0, 0, 0⟩
    ⟨⟨2024, 4, 1⟩, 9, 0, 0, 0⟩ (by decide)⟩

/-- C1 counterexample: for a store holding a leader whose created_at column
is NULL, restore skips the falsy serialized timestamp, the column default
fires, and the restored leader carries `created_at = now` instead of NULL —
the round trip is not the identity on such a store. -/
theorem backup_restore_roundtrip_counterexample :
    (restoreData (some ⟨"church_backup.json",
        some (backupData ⟨[zLeaderNullTs], []⟩ ⟨⟨2024, 4, 1⟩, 9, 0, 0, 0⟩)⟩)
      ⟨[zLeaderNullTs], []⟩ ⟨⟨2024, 4, 2⟩, 9, 0, 0, 0⟩).1
      ≠ ⟨[zLeaderNullTs], []⟩ := by
  decide
